import Mathlib

/-!
Verification of the AgriSmart farm-advisory backend
(`backend/app/ml_models/crop_model.py`, `backend/app/ml_models/yield_model.py`,
`backend/app/routes/yield_routes.py`), shallowly embedded in Lean.

Crop scores are Python floats in the source; they are modelled as rationals
(all literals in the catalog are short decimal fractions whose order and
equality agree with their float counterparts).  Python's `str.strip()` is
modelled by dropping whitespace characters from both ends of the character
list.  Python's stable `sorted(..., key=lambda x: x[1], reverse=True)` is
modelled by `List.insertionSort` with the "weight not smaller" relation,
which is a stable descending sort, hence pointwise equal to CPython's
stable sort for this comparator.
-/

namespace AgriSmart

/-- Whitespace test used by the model of Python `str.strip()`. -/
def wsChar (c : Char) : Bool := c.isWhitespace

/-- Model of Python `str.strip()`: remove leading and trailing whitespace. -/
def pyStrip (s : String) : String := ⟨(s.data.dropWhile wsChar).rdropWhile wsChar⟩

/-- Decimal score literal: `pc n` is the rational `n/100`, the model of the
Python float literal with two decimal digits (e.g. `pc 55` models `0.55`).
Built with `mkRat` so that the kernel can evaluate it (`Rat.ofScientific`
is irreducible). -/
def pc (n : ℕ) : ℚ := mkRat n 100

/-- One entry of the `RULES` table in `crop_model.py`. -/
structure Rule where
  district : String
  season : String
  soil_types : List String
  irrigation : List String
  crops : List (String × ℚ)
deriving DecidableEq, Repr, Inhabited

/-- The literal `RULES` catalog from `crop_model.py`. -/
def RULES : List Rule := [
  { district := "Siruguppa", season := "Kharif",
    soil_types := ["Red soil", "Black soil", "Alluvial soil"],
    irrigation := ["Canal", "Borewell"],
    crops := [("Paddy", pc 55), ("Maize", pc 25), ("Cotton", pc 12), ("Red gram", pc 8)] },
  { district := "Siruguppa", season := "Rabi",
    soil_types := ["Red soil", "Black soil"],
    irrigation := ["Borewell", "Canal"],
    crops := [("Wheat", pc 40), ("Chickpea", pc 35), ("Sunflower", pc 25)] },
  { district := "Siruguppa", season := "Zaid",
    soil_types := ["Red soil", "Alluvial soil"],
    irrigation := ["Borewell"],
    crops := [("Maize", pc 45), ("Vegetables", pc 35), ("Fodder maize", pc 20)] },
  { district := "Sindhanur", season := "Kharif",
    soil_types := ["Red soil", "Black soil", "Alluvial soil"],
    irrigation := ["Canal", "Borewell"],
    crops := [("Paddy", pc 65), ("Maize", pc 20), ("Soybean", pc 10), ("Cotton", pc 5)] },
  { district := "Sindhanur", season := "Rabi",
    soil_types := ["Red soil", "Black soil"],
    irrigation := ["Borewell"],
    crops := [("Paddy", pc 50), ("Wheat", pc 25), ("Chickpea", pc 25)] },
  { district := "Sindhanur", season := "Zaid",
    soil_types := ["Red soil", "Alluvial soil"],
    irrigation := ["Borewell"],
    crops := [("Vegetables", pc 40), ("Maize", pc 35), ("Fodder maize", pc 25)] },
  { district := "Gangavathi", season := "Kharif",
    soil_types := ["Red soil", "Black soil", "Alluvial soil"],
    irrigation := ["Canal", "Borewell"],
    crops := [("Paddy", pc 50), ("Groundnut", pc 20), ("Maize", pc 15), ("Cotton", pc 15)] },
  { district := "Gangavathi", season := "Rabi",
    soil_types := ["Red soil", "Black soil"],
    irrigation := ["Borewell"],
    crops := [("Groundnut", pc 40), ("Sunflower", pc 30), ("Chickpea", pc 30)] },
  { district := "Gangavathi", season := "Zaid",
    soil_types := ["Red soil", "Alluvial soil"],
    irrigation := ["Borewell"],
    crops := [("Vegetables", pc 40), ("Maize", pc 30), ("Fodder maize", pc 30)] },
  { district := "Vijaypur", season := "Kharif",
    soil_types := ["Black soil", "Red soil"],
    irrigation := ["Rainfed", "Borewell"],
    crops := [("Jowar", pc 45), ("Bajra", pc 25), ("Cotton", pc 20), ("Red gram", pc 10)] },
  { district := "Vijaypur", season := "Rabi",
    soil_types := ["Black soil"],
    irrigation := ["Rainfed", "Borewell"],
    crops := [("Wheat", pc 40), ("Chickpea", pc 35), ("Linseed", pc 25)] },
  { district := "Vijaypur", season := "Zaid",
    soil_types := ["Red soil", "Black soil"],
    irrigation := ["Borewell"],
    crops := [("Vegetables", pc 50), ("Fodder maize", pc 30), ("Maize", pc 20)] }]

/-- The four query fields read by `CropRecommender.recommend` from its
input dict (the `state` field is read by the API layer but never used by
the matcher). -/
structure Query where
  district : String
  soil_type : String
  season : String
  irrigation_source : String
deriving DecidableEq, Repr

/-- One entry of `top_predictions` in the result dict. -/
structure Prediction where
  crop : String
  score : ℚ
deriving DecidableEq, Repr

/-- The result dict of `CropRecommender.recommend`. -/
structure RecommendationResult where
  recommended_crop : String
  top_predictions : List Prediction
deriving DecidableEq, Repr

/-- The loop body of `CropRecommender._match_rules`: one pass over the rule
list, appending each region+season candidate to exactly one of the three
bucket lists (exact / soil-only / season-only), in iteration order. -/
def partitionRules (district season soil_type irrigation_source : String) :
    List Rule → List Rule × List Rule × List Rule
  | [] => ([], [], [])
  | rule :: rest =>
    let p := partitionRules district season soil_type irrigation_source rest
    if rule.district ≠ district then p
    else if rule.season ≠ season then p
    else if soil_type ∈ rule.soil_types ∧ irrigation_source ∈ rule.irrigation then
      (rule :: p.1, p.2.1, p.2.2)
    else if soil_type ∈ rule.soil_types then
      (p.1, rule :: p.2.1, p.2.2)
    else
      (p.1, p.2.1, rule :: p.2.2)

/-- `CropRecommender._match_rules`: strip the four fields, partition the
catalog, return the first non-empty bucket (exact, then soil, then season). -/
def match_rules (district season soil_type irrigation_source : String) : List Rule :=
  let d := pyStrip district
  let s := pyStrip season
  let st := pyStrip soil_type
  let ir := pyStrip irrigation_source
  let p := partitionRules d s st ir RULES
  if p.1 ≠ [] then p.1
  else if p.2.1 ≠ [] then p.2.1
  else p.2.2

/-- `_match_rules` applied to the fields of a query record. -/
def match_rulesQ (q : Query) : List Rule :=
  match_rules q.district q.season q.soil_type q.irrigation_source

/-- Comparator of the model of Python
`sorted(crops, key=lambda x: x[1], reverse=True)`: `a` may precede `b`
iff `a`'s weight is not smaller. -/
def descR (a b : String × ℚ) : Prop := b.2 ≤ a.2

instance : DecidableRel descR := fun a b => inferInstanceAs (Decidable (b.2 ≤ a.2))

instance : IsTotal (String × ℚ) descR := ⟨fun a b => le_total b.2 a.2⟩

instance : IsTrans (String × ℚ) descR := ⟨fun _ _ _ h1 h2 => le_trans h2 h1⟩

/-- Model of Python's stable descending sort by score. -/
def pySortedDesc (l : List (String × ℚ)) : List (String × ℚ) :=
  List.insertionSort descR l

/-- The literal fallback list `fallback_crops` in `recommend`. -/
def fallback_crops : List (String × ℚ) := [("Paddy", pc 40), ("Maize", pc 35), ("Chickpea", pc 25)]

/-- The fallback result built by `recommend` when no rule matched. -/
def fallbackResult : RecommendationResult :=
  { recommended_crop := (fallback_crops.headD (("", 0))).1,
    top_predictions := fallback_crops.map (fun p => { crop := p.1, score := p.2 }) }

/-- The result built by `recommend` from the winning rule.  Python indexes
`crops_sorted[0]`, which raises `IndexError` on an empty list; that failure
is modelled as `none`. -/
def ruleResultOpt (rule : Rule) : Option RecommendationResult :=
  match pySortedDesc rule.crops with
  | [] => none
  | top :: rest =>
    some { recommended_crop := top.1,
           top_predictions := ((top :: rest).take 3).map (fun p => { crop := p.1, score := p.2 }) }

/-- `CropRecommender.recommend`: match rules, fall back to the generic
constant when nothing matched, otherwise build the result from the first
matching rule.  `none` models a raised exception. -/
def recommend (q : Query) : Option RecommendationResult :=
  match match_rulesQ q with
  | [] => some fallbackResult
  | rule :: _ => ruleResultOpt rule

/-- Candidate condition: the rule's district and season equal the trimmed
query values (spec §4.1 step 1). -/
def condCand (d s : String) (r : Rule) : Bool := decide (r.district = d ∧ r.season = s)

/-- Exact condition: the rule accepts both the soil type and the
irrigation source (spec §4.1 step 2, exact bucket). -/
def condExact (st ir : String) (r : Rule) : Bool := decide (st ∈ r.soil_types ∧ ir ∈ r.irrigation)

/-- Soil-only condition: the rule accepts the soil type but not the
irrigation source. -/
def condSoil (st ir : String) (r : Rule) : Bool := decide (st ∈ r.soil_types ∧ ir ∉ r.irrigation)

/-- Residual condition: the rule does not accept the soil type. -/
def condResid (st : String) (r : Rule) : Bool := decide (st ∉ r.soil_types)

/-- Candidate set: catalog rules whose district and season equal the
trimmed query fields, in catalog order. -/
def candidateRules (q : Query) : List Rule :=
  RULES.filter (condCand (pyStrip q.district) (pyStrip q.season))

/-- Exact bucket of the candidate set. -/
def exactBucket (q : Query) : List Rule :=
  (candidateRules q).filter (condExact (pyStrip q.soil_type) (pyStrip q.irrigation_source))

/-- Soil-only bucket of the candidate set. -/
def soilOnlyBucket (q : Query) : List Rule :=
  (candidateRules q).filter (condSoil (pyStrip q.soil_type) (pyStrip q.irrigation_source))

/-- Residual bucket of the candidate set. -/
def residualBucket (q : Query) : List Rule :=
  (candidateRules q).filter (condResid (pyStrip q.soil_type))

/-- The query with all four fields stripped. -/
def stripQuery (q : Query) : Query :=
  { district := pyStrip q.district, soil_type := pyStrip q.soil_type,
    season := pyStrip q.season, irrigation_source := pyStrip q.irrigation_source }

/-- Concrete query: a district absent from the catalog. -/
def qAtlantis : Query :=
  { district := "Atlantis", soil_type := "Red soil", season := "Kharif", irrigation_source := "Canal" }

/-- Concrete query: Vijaypur / Rabi / Black soil / Rainfed (an exact match). -/
def qVijaypurRabi : Query :=
  { district := "Vijaypur", soil_type := "Black soil", season := "Rabi", irrigation_source := "Rainfed" }

/-- Concrete query: Siruguppa / Kharif with a soil type no Siruguppa rule accepts. -/
def qSiruguppaSandy : Query :=
  { district := "Siruguppa", soil_type := "Sandy soil", season := "Kharif", irrigation_source := "Canal" }

/-- Concrete query of the spec's exact-match scenario. -/
def qSiruguppaCanal : Query :=
  { district := "Siruguppa", soil_type := "Red soil", season := "Kharif", irrigation_source := "Canal" }

/-- Concrete query of the spec's soil-only scenario (`Drip` is accepted by
no Siruguppa Kharif rule). -/
def qSiruguppaDrip : Query :=
  { district := "Siruguppa", soil_type := "Red soil", season := "Kharif", irrigation_source := "Drip" }

/-- Concrete query differing from `qSiruguppaCanal` only in letter case. -/
def qSiruguppaLower : Query :=
  { district := "siruguppa", soil_type := "Red soil", season := "Kharif", irrigation_source := "Canal" }

/-- `qSiruguppaCanal` with leading/trailing whitespace added to fields. -/
def qSiruguppaPadded : Query :=
  { district := "  Siruguppa ", soil_type := "Red soil  ", season := " Kharif",
    irrigation_source := "Canal" }

/-- The first catalog rule (Siruguppa / Kharif), named for use in
concrete statements. -/
def ruleSiruguppaKharif : Rule :=
  { district := "Siruguppa", season := "Kharif",
    soil_types := ["Red soil", "Black soil", "Alluvial soil"],
    irrigation := ["Canal", "Borewell"],
    crops := [("Paddy", pc 55), ("Maize", pc 25), ("Cotton", pc 12), ("Red gram", pc 8)] }

/-- The fitted vocabulary of one scikit-learn `LabelEncoder`
(`classes_` is its sorted class list; `transform` maps a known value to
its index in that list). -/
structure LabelEncoder where
  classes_ : List String
deriving DecidableEq

/-- The trained RandomForest regressor, treated as an opaque total map
from an encoded feature row to a predicted yield.  (Python's `round(x, 2)`
on the float result is elided: it is float rounding, immaterial to the
claims about encoding and availability.) -/
structure TrainedModel where
  predictFn : List Nat → ℚ

/-- `YieldPredictor.features` from `yield_model.py`. -/
def features : List String := ["state", "district", "crop_name", "soil_type", "season", "irrigation_source"]

/-- The in-memory state of the global `YieldPredictor` instance:
`self.model`, `self.label_encoders` (a dict from feature name to encoder)
and `self.is_trained_on_real_data`. -/
structure YieldPredictorState where
  model : Option TrainedModel
  label_encoders : String → Option LabelEncoder
  is_trained_on_real_data : Bool

/-- The result dict of `YieldPredictor.predict`.  The random confidence
value, the random `prediction_id` and the advisory text list are elided
(nondeterministic / pure data, irrelevant to the claims). -/
structure YieldResult where
  predicted_yield : ℚ
  data_source : String
deriving DecidableEq

/-- The encoding step of `YieldPredictor.predict` for one feature value:
if an encoder exists, a value in its vocabulary maps to its
`LabelEncoder.transform` index and any other value maps to the default
code `0`; if `label_encoders.get(feature)` is `None`, the raw string is
left in the frame, modelled as `none`. -/
def encodeFeature (le : Option LabelEncoder) (v : String) : Option Nat :=
  match le with
  | some e => some (if v ∈ e.classes_ then e.classes_.indexOf v else 0)
  | none => none

/-- The full encoding loop of `YieldPredictor.predict`: encode each
feature present in the input dict, in `features` order.  A row containing
an unencoded raw string makes `model.predict` raise (caught, `None`),
modelled by `Option.none` propagation. -/
def encodeRow (encoders : String → Option LabelEncoder) (input : String → Option String) :
    Option (List Nat) :=
  (features.filter (fun f => (input f).isSome)).mapM
    (fun f => encodeFeature (encoders f) ((input f).getD ("")))

/-- The prediction step of `YieldPredictor.predict` once a model and
encoders are in hand. -/
def predictWith (m : TrainedModel) (encoders : String → Option LabelEncoder)
    (input : String → Option String) (trainedReal : Bool) : Option YieldResult :=
  match encodeRow encoders input with
  | some codes => some { predicted_yield := m.predictFn codes,
                         data_source := if trainedReal then "real" else "sample" }
  | none => none

/-- `YieldPredictor.predict`: if no model is in memory, lazily load the
persisted model and encoders (`joblib.load`); `saved = none` models a
loading failure (the `except` branch), which returns `None`.  After a
successful load `is_trained_on_real_data` is set to `True`. -/
def predict (saved : Option (TrainedModel × (String → Option LabelEncoder)))
    (st : YieldPredictorState) (input : String → Option String) : Option YieldResult :=
  match st.model with
  | some m => predictWith m st.label_encoders input st.is_trained_on_real_data
  | none =>
    match saved with
    | some (m, encs) => predictWith m encs input true
    | none => none

/-- The caller-visible outcome of `POST /predict` in `yield_routes.py`
as a function of the model's return value: `None` becomes the HTTP 500
error `Prediction model not available`, anything else is returned
(storage and response decoration elided). -/
inductive RouteResponse
  | ok (r : YieldResult)
  | httpError (status : Nat) (detail : String)
deriving DecidableEq

/-- Lines 30-31 of `yield_routes.py`. -/
def predict_yield_route (p : Option YieldResult) : RouteResponse :=
  match p with
  | none => RouteResponse.httpError 500 ("Prediction model not available")
  | some r => RouteResponse.ok r

/-! ### Helper lemmas -/

/-- The first element surviving `dropWhile` fails the predicate. -/
theorem dropWhile_head_not {α : Type} (p : α → Bool) :
    ∀ (l : List α) (a : α) (t : List α), l.dropWhile p = a :: t → ¬ p a := by
  intro l
  induction l with
  | nil => intro a t h; simp [List.dropWhile] at h
  | cons x xs ih =>
    intro a t h
    rw [List.dropWhile_cons] at h
    by_cases hx : p x
    · simp only [hx, if_true] at h
      exact ih a t h
    · simp only [hx, if_false] at h
      cases h
      simpa using hx

/-- Stripping is idempotent on the underlying character list. -/
theorem trimList_idem (l : List Char) :
    (((l.dropWhile wsChar).rdropWhile wsChar).dropWhile wsChar).rdropWhile wsChar
      = (l.dropWhile wsChar).rdropWhile wsChar := by
  rcases ht : (l.dropWhile wsChar).rdropWhile wsChar with _ | ⟨a, t'⟩
  · simp
  · obtain ⟨r, hr⟩ := List.rdropWhile_prefix wsChar (l.dropWhile wsChar)
    rw [ht] at hr
    have hy : l.dropWhile wsChar = a :: (t' ++ r) := by rw [← hr]; simp
    have hna : ¬ wsChar a := dropWhile_head_not wsChar l a (t' ++ r) hy
    rw [List.dropWhile_cons, if_neg hna, ← ht, List.rdropWhile_idempotent]

/-- Model of Python `str.strip()` is idempotent. -/
theorem pyStrip_idem (s : String) : pyStrip (pyStrip s) = pyStrip s := by
  unfold pyStrip
  exact congrArg String.mk (trimList_idem s.data)

/-- The `_match_rules` loop computes exactly the three filter-buckets of
the spec, in catalog iteration order. -/
theorem partitionRules_eq (d s st ir : String) (rs : List Rule) :
    partitionRules d s st ir rs =
      ((rs.filter (condCand d s)).filter (condExact st ir),
       (rs.filter (condCand d s)).filter (condSoil st ir),
       (rs.filter (condCand d s)).filter (condResid st)) := by
  induction rs with
  | nil => rfl
  | cons r rs ih =>
    by_cases h1 : r.district = d
    · by_cases h2 : r.season = s
      · by_cases h3 : st ∈ r.soil_types
        · by_cases h4 : ir ∈ r.irrigation
          · simp [partitionRules, ih, List.filter_cons, condCand, condExact, condSoil, condResid,
              h1, h2, h3, h4]
          · simp [partitionRules, ih, List.filter_cons, condCand, condExact, condSoil, condResid,
              h1, h2, h3, h4]
        · simp [partitionRules, ih, List.filter_cons, condCand, condExact, condSoil, condResid,
            h1, h2, h3]
      · simp [partitionRules, ih, List.filter_cons, condCand, condExact, condSoil, condResid,
          h1, h2]
    · simp [partitionRules, ih, List.filter_cons, condCand, condExact, condSoil, condResid, h1]

/-- `_match_rules` selects the highest-priority non-empty bucket. -/
theorem match_rulesQ_eq_buckets (q : Query) :
    match_rulesQ q =
      if exactBucket q ≠ [] then exactBucket q
      else if soilOnlyBucket q ≠ [] then soilOnlyBucket q
      else residualBucket q := by
  unfold match_rulesQ match_rules exactBucket soilOnlyBucket residualBucket candidateRules
  simp only [partitionRules_eq]

/-- Every rule returned by `_match_rules` comes from the catalog. -/
theorem mem_match_rulesQ (q : Query) (r : Rule) (h : r ∈ match_rulesQ q) : r ∈ RULES := by
  rw [match_rulesQ_eq_buckets] at h
  split_ifs at h <;>
    exact List.mem_of_mem_filter (List.mem_of_mem_filter h)

/-- The model of Python `sorted` is a permutation of its input. -/
theorem pySortedDesc_perm (l : List (String × ℚ)) : List.Perm (pySortedDesc l) l :=
  List.perm_insertionSort descR l

/-- The model of Python `sorted` yields weights in non-increasing order. -/
theorem pySortedDesc_sorted (l : List (String × ℚ)) : List.Sorted descR (pySortedDesc l) :=
  List.sorted_insertionSort descR l

/-- Inserting an element into a list places it before every element of
strictly smaller weight and after nothing of equal weight: on the
weight-`w` fibre, `orderedInsert` prepends. -/
theorem filter_orderedInsert_weight (x : String × ℚ) (w : ℚ) :
    ∀ L : List (String × ℚ),
      (List.orderedInsert descR x L).filter (fun p => decide (p.2 = w))
        = if x.2 = w then x :: L.filter (fun p => decide (p.2 = w))
          else L.filter (fun p => decide (p.2 = w)) := by
  intro L
  induction L with
  | nil =>
    simp only [List.orderedInsert, List.filter_cons, List.filter_nil]
    by_cases hw : x.2 = w <;> simp [hw]
  | cons b L ih =>
    rw [List.orderedInsert]
    by_cases hxb : descR x b
    · rw [if_pos hxb, List.filter_cons]
      by_cases hw : x.2 = w <;> simp [hw]
    · rw [if_neg hxb, List.filter_cons, ih]
      have hlt : x.2 < b.2 := lt_of_not_le hxb
      by_cases hw : x.2 = w
      · have hbw : ¬ (b.2 = w) := by
          intro hb
          rw [hb, ← hw] at hlt
          exact lt_irrefl _ hlt
        simp [hw, hbw, List.filter_cons]
      · by_cases hbw : b.2 = w <;> simp [hw, hbw, List.filter_cons]

/-- Stability of the model of Python `sorted`: for every weight `w`, the
options of weight `w` appear in the output in exactly their input order. -/
theorem pySortedDesc_stable (l : List (String × ℚ)) (w : ℚ) :
    (pySortedDesc l).filter (fun p => decide (p.2 = w))
      = l.filter (fun p => decide (p.2 = w)) := by
  unfold pySortedDesc
  induction l with
  | nil => rfl
  | cons x l ih =>
    rw [List.insertionSort, filter_orderedInsert_weight, List.filter_cons]
    by_cases hw : x.2 = w <;> simp [hw, ih]

/-- Every rule of the catalog has a non-empty crop list. -/
theorem RULES_crops_ne_nil : ∀ r ∈ RULES, r.crops ≠ [] := by decide

/-- No rule of the catalog produces the generic fallback result, and every
rule produces a result with 1 to 3 predictions. -/
theorem RULES_result_ok : ∀ r ∈ RULES,
    (ruleResultOpt r).isSome ∧
    (ruleResultOpt r) ≠ some fallbackResult ∧
    ((ruleResultOpt r).getD fallbackResult).top_predictions ≠ [] := by decide

/-- When no catalog rule matches the trimmed district and season, all
three buckets are empty and `recommend` returns the fixed fallback. -/
theorem recommend_eq_fallback_of_no_candidate (q : Query)
    (h : ∀ r ∈ RULES, ¬ (r.district = pyStrip q.district ∧ r.season = pyStrip q.season)) :
    recommend q = some fallbackResult := by
  have hcand : candidateRules q = [] := by
    rw [candidateRules, List.filter_eq_nil_iff]
    intro r hr
    simpa [condCand] using h r hr
  have hmr : match_rulesQ q = [] := by
    rw [match_rulesQ_eq_buckets]
    simp [exactBucket, soilOnlyBucket, residualBucket, hcand]
  simp [recommend, hmr]

/-! ### Claim theorems -/

/-- Claim C1: for every query whose trimmed district and trimmed season
match no rule in the catalog, `recommend` returns exactly the fixed
generic fallback: three predictions with scores 0.40, 0.35, 0.25 in that
order, fixed literal crop labels, `recommended_crop` equal to the first
fallback label, and the same result on every such call. -/
theorem crop_no_candidate_gives_fixed_fallback (q : Query)
    (h : ∀ r ∈ RULES, ¬ (r.district = pyStrip q.district ∧ r.season = pyStrip q.season)) :
    recommend q = some fallbackResult ∧
    fallbackResult.recommended_crop = "Paddy" ∧
    fallbackResult.top_predictions =
      [{ crop := "Paddy", score := pc 40 }, { crop := "Maize", score := pc 35 },
        { crop := "Chickpea", score := pc 25 }] ∧
    (pc 40 : ℚ) = 0.40 ∧ (pc 35 : ℚ) = 0.35 ∧ (pc 25 : ℚ) = 0.25 ∧
    (∀ q' : Query,
      (∀ r ∈ RULES, ¬ (r.district = pyStrip q'.district ∧ r.season = pyStrip q'.season)) →
      recommend q' = recommend q) := by
  refine ⟨recommend_eq_fallback_of_no_candidate q h, rfl, rfl, ?_, ?_, ?_, ?_⟩
  · rw [pc, Rat.mkRat_eq_div]; norm_num
  · rw [pc, Rat.mkRat_eq_div]; norm_num
  · rw [pc, Rat.mkRat_eq_div]; norm_num
  · intro q' h'
    rw [recommend_eq_fallback_of_no_candidate q' h', recommend_eq_fallback_of_no_candidate q h]

/-- Witness for C1 at a district absent from the catalog. -/
theorem crop_no_candidate_gives_fixed_fallback_witness :
    recommend qAtlantis = some fallbackResult ∧
    fallbackResult.recommended_crop = "Paddy" ∧
    fallbackResult.top_predictions =
      [{ crop := "Paddy", score := pc 40 }, { crop := "Maize", score := pc 35 },
        { crop := "Chickpea", score := pc 25 }] ∧
    (pc 40 : ℚ) = 0.40 ∧ (pc 35 : ℚ) = 0.35 ∧ (pc 25 : ℚ) = 0.25 ∧
    (∀ q' : Query,
      (∀ r ∈ RULES, ¬ (r.district = pyStrip q'.district ∧ r.season = pyStrip q'.season)) →
      recommend q' = recommend qAtlantis) :=
  crop_no_candidate_gives_fixed_fallback qAtlantis (by decide)

/-- Claim C2: candidate rules are partitioned into exact, soil-only and
residual buckets; `_match_rules` returns the highest-priority non-empty
bucket (exact before soil-only before residual, so an exact match
suppresses the other buckets), and `recommend` uses only the first rule
of that bucket in catalog iteration order — rules are never merged. -/
theorem crop_bucket_partition_first_wins (q : Query) :
    match_rulesQ q =
      (if exactBucket q ≠ [] then exactBucket q
       else if soilOnlyBucket q ≠ [] then soilOnlyBucket q
       else residualBucket q) ∧
    (∀ r ∈ candidateRules q,
      ((r ∈ exactBucket q) ↔
        (pyStrip q.soil_type ∈ r.soil_types ∧ pyStrip q.irrigation_source ∈ r.irrigation)) ∧
      ((r ∈ soilOnlyBucket q) ↔
        (pyStrip q.soil_type ∈ r.soil_types ∧ pyStrip q.irrigation_source ∉ r.irrigation)) ∧
      ((r ∈ residualBucket q) ↔ pyStrip q.soil_type ∉ r.soil_types)) ∧
    recommend q = (match match_rulesQ q with
      | [] => some fallbackResult
      | rule :: _ => ruleResultOpt rule) := by
  refine ⟨match_rulesQ_eq_buckets q, ?_, rfl⟩
  intro r hr
  refine ⟨?_, ?_, ?_⟩
  · simp [exactBucket, List.mem_filter, condExact, hr]
  · simp [soilOnlyBucket, List.mem_filter, condSoil, hr]
  · simp [residualBucket, List.mem_filter, condResid, hr]

/-- Witness for C2 at a concrete query with a non-empty exact bucket. -/
theorem crop_bucket_partition_first_wins_witness :
    match_rulesQ qVijaypurRabi =
      (if exactBucket qVijaypurRabi ≠ [] then exactBucket qVijaypurRabi
       else if soilOnlyBucket qVijaypurRabi ≠ [] then soilOnlyBucket qVijaypurRabi
       else residualBucket qVijaypurRabi) ∧
    (∀ r ∈ candidateRules qVijaypurRabi,
      ((r ∈ exactBucket qVijaypurRabi) ↔
        (pyStrip qVijaypurRabi.soil_type ∈ r.soil_types ∧
          pyStrip qVijaypurRabi.irrigation_source ∈ r.irrigation)) ∧
      ((r ∈ soilOnlyBucket qVijaypurRabi) ↔
        (pyStrip qVijaypurRabi.soil_type ∈ r.soil_types ∧
          pyStrip qVijaypurRabi.irrigation_source ∉ r.irrigation)) ∧
      ((r ∈ residualBucket qVijaypurRabi) ↔ pyStrip qVijaypurRabi.soil_type ∉ r.soil_types)) ∧
    recommend qVijaypurRabi = (match match_rulesQ qVijaypurRabi with
      | [] => some fallbackResult
      | rule :: _ => ruleResultOpt rule) :=
  crop_bucket_partition_first_wins qVijaypurRabi

/-- Claim C3: if the district+season candidate set is non-empty but no
candidate accepts the query's soil type, `_match_rules` falls through to
the residual bucket (the whole candidate set) and `recommend` returns the
first candidate rule — never the generic fallback. -/
theorem crop_residual_not_fallback (q : Query) (r : Rule) (rest : List Rule)
    (hc : candidateRules q = r :: rest)
    (hs : ∀ x ∈ candidateRules q, pyStrip q.soil_type ∉ x.soil_types) :
    match_rulesQ q = residualBucket q ∧
    residualBucket q = candidateRules q ∧
    recommend q = ruleResultOpt r ∧
    recommend q ≠ some fallbackResult := by
  have hex : exactBucket q = [] := by
    rw [exactBucket, List.filter_eq_nil_iff]
    intro x hx
    simp only [condExact, decide_eq_true_eq, not_and]
    intro hmem
    exact absurd hmem (hs x hx)
  have hso : soilOnlyBucket q = [] := by
    rw [soilOnlyBucket, List.filter_eq_nil_iff]
    intro x hx
    simp only [condSoil, decide_eq_true_eq, not_and]
    intro hmem
    exact absurd hmem (hs x hx)
  have hres : residualBucket q = candidateRules q := by
    rw [residualBucket, List.filter_eq_self]
    intro x hx
    simpa [condResid] using hs x hx
  have hmr : match_rulesQ q = residualBucket q := by
    rw [match_rulesQ_eq_buckets, hex, hso]
    simp
  have hrec : recommend q = ruleResultOpt r := by
    have hlist : match_rulesQ q = r :: rest := by rw [hmr, hres, hc]
    simp [recommend, hlist]
  have hmem : r ∈ RULES := by
    have : r ∈ candidateRules q := by rw [hc]; exact List.mem_cons_self r rest
    exact List.mem_of_mem_filter this
  obtain ⟨_, hne, _⟩ := RULES_result_ok r hmem
  exact ⟨hmr, hres, hrec, by rw [hrec]; exact hne⟩

/-- Witness for C3: Siruguppa/Kharif exists, but no rule for it accepts
the soil type `Sandy soil`. -/
theorem crop_residual_not_fallback_witness :
    match_rulesQ qSiruguppaSandy = residualBucket qSiruguppaSandy ∧
    residualBucket qSiruguppaSandy = candidateRules qSiruguppaSandy ∧
    recommend qSiruguppaSandy = ruleResultOpt ruleSiruguppaKharif ∧
    recommend qSiruguppaSandy ≠ some fallbackResult :=
  crop_residual_not_fallback qSiruguppaSandy ruleSiruguppaKharif [] (by decide) (by decide)

/-- Claim C4: for every winning rule, the result's predictions are that
rule's weighted options sorted descending by weight with a stable sort
(the sort is a permutation, weight-non-increasing, and preserves the
input order on every equal-weight fibre) and truncated to at most 3
entries, so the prediction count is `min 3 (number of options)`. -/
theorem crop_winner_sorted_top3 (q : Query) (rule : Rule) (rest : List Rule)
    (h : match_rulesQ q = rule :: rest) :
    ∃ res, recommend q = some res ∧
      res.top_predictions =
        ((pySortedDesc rule.crops).take 3).map (fun p => { crop := p.1, score := p.2 }) ∧
      res.top_predictions.length = min 3 rule.crops.length ∧
      List.Perm (pySortedDesc rule.crops) rule.crops ∧
      List.Sorted descR (pySortedDesc rule.crops) ∧
      (∀ w, (pySortedDesc rule.crops).filter (fun p => decide (p.2 = w))
          = rule.crops.filter (fun p => decide (p.2 = w))) := by
  have hmem : rule ∈ RULES :=
    mem_match_rulesQ q rule (by rw [h]; exact List.mem_cons_self rule rest)
  have hcne : rule.crops ≠ [] := RULES_crops_ne_nil rule hmem
  have hlen : (pySortedDesc rule.crops).length = rule.crops.length :=
    (pySortedDesc_perm rule.crops).length_eq
  have hsne : pySortedDesc rule.crops ≠ [] := by
    intro h0
    rw [h0] at hlen
    exact hcne (List.length_eq_zero.mp hlen.symm)
  obtain ⟨top, rest2, hts⟩ := List.exists_cons_of_ne_nil hsne
  have hcalc : recommend q = some
      { recommended_crop := top.1,
        top_predictions := ((top :: rest2).take 3).map (fun p => { crop := p.1, score := p.2 }) } := by
    simp [recommend, h, ruleResultOpt, hts]
  refine ⟨_, hcalc, ?_, ?_, pySortedDesc_perm rule.crops, pySortedDesc_sorted rule.crops,
    pySortedDesc_stable rule.crops⟩
  · rw [hts]
  · simp only [List.length_map, List.length_take]
    rw [← hts, hlen]

/-- Witness for C4 at the exact-match Siruguppa query, whose winning rule
has exactly 4 weighted options (so exactly 3 predictions). -/
theorem crop_winner_sorted_top3_witness :
    ∃ res, recommend qSiruguppaCanal = some res ∧
      res.top_predictions =
        ((pySortedDesc ruleSiruguppaKharif.crops).take 3).map
          (fun p => { crop := p.1, score := p.2 }) ∧
      res.top_predictions.length = min 3 ruleSiruguppaKharif.crops.length ∧
      List.Perm (pySortedDesc ruleSiruguppaKharif.crops) ruleSiruguppaKharif.crops ∧
      List.Sorted descR (pySortedDesc ruleSiruguppaKharif.crops) ∧
      (∀ w, (pySortedDesc ruleSiruguppaKharif.crops).filter (fun p => decide (p.2 = w))
          = ruleSiruguppaKharif.crops.filter (fun p => decide (p.2 = w))) :=
  crop_winner_sorted_top3 qSiruguppaCanal ruleSiruguppaKharif [] (by decide)

/-- Claim C5: on any four string fields, `recommend` is total (the model
returns `some`, i.e. the Python function raises no exception) and the
result carries at least one prediction. -/
theorem crop_recommend_total_nonempty (q : Query) :
    ∃ res, recommend q = some res ∧ res.top_predictions ≠ [] := by
  cases hm : match_rulesQ q with
  | nil =>
    exact ⟨fallbackResult, by simp [recommend, hm], by decide⟩
  | cons r rest =>
    have hmem : r ∈ RULES := mem_match_rulesQ q r (by rw [hm]; exact List.mem_cons_self r rest)
    obtain ⟨hsome, _, hne⟩ := RULES_result_ok r hmem
    obtain ⟨res, hres⟩ := Option.isSome_iff_exists.mp hsome
    refine ⟨res, by simp [recommend, hm, hres], ?_⟩
    have hgd : (ruleResultOpt r).getD fallbackResult = res := by rw [hres]; rfl
    rwa [hgd] at hne

/-- Claim C6: the Siruguppa/Kharif/Red soil/Canal query returns Paddy with
predictions Paddy 0.55, Maize 0.25, Cotton 0.12 in that order; the same
query with irrigation source Drip selects the same rule through the
soil-only bucket and returns the identical result. -/
theorem crop_siruguppa_scenarios :
    recommend qSiruguppaCanal =
      some { recommended_crop := "Paddy",
             top_predictions := [{ crop := "Paddy", score := pc 55 },
               { crop := "Maize", score := pc 25 }, { crop := "Cotton", score := pc 12 }] } ∧
    (pc 55 : ℚ) = 0.55 ∧ (pc 25 : ℚ) = 0.25 ∧ (pc 12 : ℚ) = 0.12 ∧
    exactBucket qSiruguppaCanal = [ruleSiruguppaKharif] ∧
    exactBucket qSiruguppaDrip = [] ∧
    soilOnlyBucket qSiruguppaDrip = [ruleSiruguppaKharif] ∧
    match_rulesQ qSiruguppaDrip = [ruleSiruguppaKharif] ∧
    recommend qSiruguppaDrip = recommend qSiruguppaCanal := by
  refine ⟨by decide, ?_, ?_, ?_, by decide, by decide, by decide, by decide, by decide⟩
  · rw [pc, Rat.mkRat_eq_div]; norm_num
  · rw [pc, Rat.mkRat_eq_div]; norm_num
  · rw [pc, Rat.mkRat_eq_div]; norm_num

/-- Claim C7: `recommend` is invariant under trimming (two queries with
the same trimmed fields get the same result, and trimming a query does
not change its result), but matching is case-sensitive: the same query
with a lower-case district falls through to the generic fallback. -/
theorem crop_trim_invariant_case_sensitive :
    (∀ q : Query, recommend q = recommend (stripQuery q)) ∧
    (∀ q q' : Query, stripQuery q = stripQuery q' → recommend q = recommend q') ∧
    recommend qSiruguppaLower = some fallbackResult ∧
    recommend qSiruguppaCanal ≠ some fallbackResult := by
  have hmq : ∀ q : Query, match_rulesQ (stripQuery q) = match_rulesQ q := by
    intro q
    simp only [match_rulesQ, match_rules, stripQuery, pyStrip_idem]
  have h1 : ∀ q : Query, recommend q = recommend (stripQuery q) := by
    intro q
    unfold recommend
    rw [hmq]
  refine ⟨h1, ?_, by decide, by decide⟩
  intro q q' hqq
  rw [h1 q, h1 q', hqq]

/-- Witness for C7: padding the Siruguppa query's fields with whitespace
does not change the result. -/
theorem crop_trim_invariant_case_sensitive_witness :
    recommend qSiruguppaPadded = recommend qSiruguppaCanal :=
  crop_trim_invariant_case_sensitive.2.1 qSiruguppaPadded qSiruguppaCanal (by decide)

/-- Claim C10: every result of `recommend` — rule-derived or fallback —
has a non-empty prediction list whose first crop is `recommended_crop`,
and its scores are in non-increasing order. -/
theorem crop_result_head_and_sorted (q : Query) (res : RecommendationResult)
    (h : recommend q = some res) :
    res.top_predictions ≠ [] ∧
    res.recommended_crop = (res.top_predictions.headD { crop := "", score := 0 }).crop ∧
    List.Sorted (fun a b => b.score ≤ a.score) res.top_predictions := by
  cases hm : match_rulesQ q with
  | nil =>
    have hfb : some fallbackResult = some res := by rw [← h]; simp [recommend, hm]
    obtain rfl : fallbackResult = res := Option.some_inj.mp hfb
    exact ⟨by decide, by decide, by decide⟩
  | cons rule rest =>
    have hmem : rule ∈ RULES :=
      mem_match_rulesQ q rule (by rw [hm]; exact List.mem_cons_self rule rest)
    have hcne : rule.crops ≠ [] := RULES_crops_ne_nil rule hmem
    have hlen : (pySortedDesc rule.crops).length = rule.crops.length :=
      (pySortedDesc_perm rule.crops).length_eq
    have hsne : pySortedDesc rule.crops ≠ [] := by
      intro h0
      rw [h0] at hlen
      exact hcne (List.length_eq_zero.mp hlen.symm)
    obtain ⟨top, rest2, hts⟩ := List.exists_cons_of_ne_nil hsne
    have hcalc : recommend q = some
        { recommended_crop := top.1,
          top_predictions := ((top :: rest2).take 3).map (fun p => { crop := p.1, score := p.2 }) } := by
      simp [recommend, hm, ruleResultOpt, hts]
    rw [h] at hcalc
    obtain rfl : res = _ := Option.some_inj.mp hcalc
    refine ⟨?_, ?_, ?_⟩
    · simp
    · simp
    · have htake : List.Sorted descR ((pySortedDesc rule.crops).take 3) :=
        List.Pairwise.sublist (List.take_sublist 3 _) (pySortedDesc_sorted rule.crops)
      rw [hts] at htake
      exact List.pairwise_map.mpr htake

/-- Witness for C10 at the fallback result. -/
theorem crop_result_head_and_sorted_witness :
    fallbackResult.top_predictions ≠ [] ∧
    fallbackResult.recommended_crop =
      (fallbackResult.top_predictions.headD { crop := "", score := 0 }).crop ∧
    List.Sorted (fun a b => b.score ≤ a.score) fallbackResult.top_predictions :=
  crop_result_head_and_sorted qAtlantis fallbackResult (by decide)

/-- `mapM` over `Option` succeeds when every element maps to `some`. -/
theorem mapM_option_isSome {α β : Type} (g : α → Option β) :
    ∀ l : List α, (∀ a ∈ l, (g a).isSome) → (l.mapM g).isSome := by
  intro l
  induction l with
  | nil => intro _; rfl
  | cons a l ih =>
    intro h
    obtain ⟨b, hb⟩ := Option.isSome_iff_exists.mp (h a (List.mem_cons_self a l))
    obtain ⟨bs, hbs⟩ := Option.isSome_iff_exists.mp
      (ih (fun x hx => h x (List.mem_cons_of_mem a hx)))
    rw [List.mapM_cons, hb, hbs]
    rfl

/-- When every feature has a fitted encoder, the encoding loop of
`YieldPredictor.predict` succeeds on any input dict. -/
theorem encodeRow_isSome (encoders : String → Option LabelEncoder)
    (input : String → Option String)
    (hall : ∀ g ∈ features, (encoders g).isSome) :
    (encodeRow encoders input).isSome := by
  unfold encodeRow
  apply mapM_option_isSome
  intro f hf
  obtain ⟨e, he⟩ := Option.isSome_iff_exists.mp (hall f (List.mem_of_mem_filter hf))
  rw [he]
  rfl

/-- Claim C8: when some categorical feature's value is absent from that
feature's fitted vocabulary, encoding does not raise: the value gets the
fixed default code 0 and prediction still produces a result (given a
loaded model and an encoder for every feature, as training provides). -/
theorem yield_unknown_category_code_zero
    (m : TrainedModel) (encoders : String → Option LabelEncoder)
    (input : String → Option String) (b : Bool) (f v : String) (e : LabelEncoder)
    (hf : f ∈ features) (hv : input f = some v) (he : encoders f = some e)
    (hunk : v ∉ e.classes_)
    (hall : ∀ g ∈ features, (encoders g).isSome) :
    encodeFeature (encoders f) v = some 0 ∧
    ∃ r, predict none
      { model := some m, label_encoders := encoders, is_trained_on_real_data := b } input
        = some r := by
  constructor
  · rw [he]
    simp [encodeFeature, hunk]
  · have hrow := encodeRow_isSome encoders input hall
    obtain ⟨codes, hcodes⟩ := Option.isSome_iff_exists.mp hrow
    refine ⟨{ predicted_yield := m.predictFn codes,
              data_source := if b then "real" else "sample" }, ?_⟩
    simp [predict, predictWith, hcodes]

/-- Witness for C8: a one-class vocabulary and an input value outside it. -/
theorem yield_unknown_category_code_zero_witness :
    encodeFeature ((fun _ => some { classes_ := ["Karnataka"] }) "state") "Goa" = some 0 ∧
    ∃ r, predict none
      { model := some { predictFn := fun _ => 3 },
        label_encoders := fun _ => some { classes_ := ["Karnataka"] },
        is_trained_on_real_data := true } (fun _ => some "Goa")
        = some r :=
  yield_unknown_category_code_zero { predictFn := fun _ => 3 }
    (fun _ => some { classes_ := ["Karnataka"] }) (fun _ => some "Goa") true
    "state" "Goa" { classes_ := ["Karnataka"] }
    (by decide) rfl rfl (by decide) (fun g _ => rfl)

/-- Claim C9: with no model in memory, `predict` lazily loads the
persisted model and encoders and proceeds with them; if loading fails it
returns `None` (never a default prediction, and — being a total function
of the model state — never a crash), which the route surfaces as the
HTTP 500 `Prediction model not available` error response. -/
theorem yield_lazy_load_failure_unavailable
    (encs0 : String → Option LabelEncoder) (b : Bool) (input : String → Option String) :
    predict none
      { model := none, label_encoders := encs0, is_trained_on_real_data := b } input = none ∧
    predict_yield_route (predict none
      { model := none, label_encoders := encs0, is_trained_on_real_data := b } input) =
      RouteResponse.httpError 500 ("Prediction model not available") ∧
    (∀ (m : TrainedModel) (encs : String → Option LabelEncoder),
      predict (some (m, encs))
        { model := none, label_encoders := encs0, is_trained_on_real_data := b } input
          = predictWith m encs input true) ∧
    (∀ m : TrainedModel,
      predict none
        { model := some m, label_encoders := encs0, is_trained_on_real_data := b } input
          = predictWith m encs0 input b) :=
  ⟨rfl, rfl, fun _ _ => rfl, fun _ => rfl⟩

end AgriSmart
